import Mathlib

/-!
Shallow embedding of the GPU resource core of
`sanbox-irl/vulkan_rust_loading_texture_example`
(`src/buffer_bundle.rs`, `src/loaded_image.rs`).

Pure computations (memory-type selection, row-pitch arithmetic, the
row-copy loop of the staging upload) are translated to Lean functions;
the device-facing code is modelled as a function from a device oracle
(which decides the outcome of each fallible device call and supplies
device tables and limits) to a trace of device calls plus an outcome.
Machine integers are modelled as `Nat` with explicit `% 2^32` at the
places where the Rust source casts to `u32`.
-/

namespace VulkanLoader

/-- `gfx_hal::memory::Properties` modelled as a `Nat` bitmask.
`Properties::DEVICE_LOCAL` bit. -/
def DEVICE_LOCAL : Nat := 1

/-- `Properties::CPU_VISIBLE` bit. -/
def CPU_VISIBLE : Nat := 2

/-- `bitflags` `contains`: all bits of `req` are present in `props`. -/
def propsContains (props req : Nat) : Bool := props &&& req == req

/-- Memory requirements (`gfx_hal::memory::Requirements`): `size` and
`type_mask`. -/
structure Requirements where
  size : Nat
  type_mask : Nat
  deriving DecidableEq, Repr

/-- The memory-type selector, as written (identically) in
`BufferBundle::new` (buffer_bundle.rs:34-45) and
`LoadedImage::allocate_and_create` (loaded_image.rs:55-66):
`memory_types.iter().enumerate().find(|&(id, mt)| type_mask & (1 << id) != 0
&& mt.properties.contains(required)).map(|(id, _)| MemoryTypeId(id))`.
Each memory type is represented by its property bitmask. -/
def find_memory_type_id (memory_types : List Nat) (type_mask required : Nat) :
    Option Nat :=
  (memory_types.enum.find? fun p =>
    (type_mask &&& (1 <<< p.1) != 0) && propsContains p.2 required).map (·.1)

/-- `memory_types[i]` exists, its bit is set in the mask, and its
properties contain `required` — the match condition at index `i`. -/
def matchesAt (memory_types : List Nat) (type_mask required i : Nat) : Bool :=
  match memory_types.get? i with
  | some props => (type_mask &&& (1 <<< i) != 0) && propsContains props required
  | none => false

/-- Row-pitch computation from `LoadedImage::create_staging_buffer`
(loaded_image.rs:204-208):
`row_alignment_mask = limits.optimal_buffer_copy_pitch_alignment as u32 - 1`,
`row_size = size_of::<u32>() * width`,
`row_pitch = ((row_size as u32 + row_alignment_mask) & !row_alignment_mask) as usize`.
The `as u32` casts truncate mod `2^32`; u32 `!mask` is `2^32 - 1 - mask`. -/
def row_pitch (width align : Nat) : Nat :=
  let row_size := 4 * width
  let row_alignment_mask := (align - 1) % 2 ^ 32
  ((row_size + row_alignment_mask) % 2 ^ 32) &&& (2 ^ 32 - 1 - row_alignment_mask)

/-- Byte contents of a mapped region: `none` marks a byte never written. -/
def Mem : Type := Nat → Option Nat

/-- Outcome of `BufferBundle::update_buffer` (buffer_bundle.rs:70-84):
the `assert!` can fail, the `&verts[0]` indexing can panic, or the call
returns, with `some` new contents when a mapped pointer was present. -/
inductive UpdateResult where
  | assertFailed
  | indexPanicked
  | ok (newContents : Option Mem)

/-- Write `bytes` at address `dest` (`ptr::copy_nonoverlapping` of
`verts.len() * size_of::<T>()` bytes). -/
def writeBytes (mem : Mem) (dest : Nat) (bytes : List Nat) : Mem :=
  fun a => if dest ≤ a ∧ a < dest + bytes.length then bytes.get? (a - dest) else mem a

/-- `BufferBundle::update_buffer::<T>(verts, vertex_offset)`
(buffer_bundle.rs:70-84). Each element of `verts` is its `elemSize`-byte
representation. The assertion is
`requirements.size >= verts.len() * size_of::<T>() + vertex_offset`
(`vertex_offset` NOT scaled), then, only when a mapped pointer is
present, `src = &verts[0]` (panics on an empty slice) and the copy lands
at byte offset `vertex_offset * size_of::<T>()` (`vertex_offset` scaled). -/
def update_buffer (reqSize : Nat) (mapped : Option Mem) (elemSize : Nat)
    (verts : List (List Nat)) (vertex_offset : Nat) : UpdateResult :=
  if verts.length * elemSize + vertex_offset ≤ reqSize then
    match mapped with
    | none => .ok none
    | some mem =>
      if verts.length = 0 then .indexPanicked
      else .ok (some (writeBytes mem (vertex_offset * elemSize) (verts.flatten)))
  else .assertFailed

/-- `gfx_hal::buffer::Usage` flags appearing at the `BufferBundle::new`
boundary. -/
inductive BufferUsage where
  | TRANSFER_SRC
  | TRANSFER_DST
  deriving DecidableEq, Repr

/-- `gfx_hal::image::Filter`. -/
inductive Filter where
  | Nearest
  | Linear
  deriving DecidableEq, Repr

/-- `gfx_hal::image::Layout` values used by the upload pipeline. -/
inductive Layout where
  | Undefined
  | TransferDstOptimal
  | ShaderReadOnlyOptimal
  deriving DecidableEq, Repr

/-- `gfx_hal::image::Access` values used by the pipeline barriers. -/
inductive ImageAccess where
  | empty
  | TRANSFER_WRITE
  | SHADER_READ
  deriving DecidableEq, Repr

/-- `gfx_hal::pso::PipelineStage` values used by the pipeline barriers. -/
inductive PipelineStage where
  | TOP_OF_PIPE
  | TRANSFER
  | FRAGMENT_SHADER
  deriving DecidableEq, Repr

/-- `gfx_hal::command::BufferImageCopy` as recorded at
loaded_image.rs:285-300 (mip level 0, single color layer kept implicit). -/
structure BufferImageCopy where
  buffer_offset : Nat
  buffer_width : Nat
  buffer_height : Nat
  offset_x : Int
  offset_y : Int
  offset_z : Int
  extent_width : Nat
  extent_height : Nat
  extent_depth : Nat
  deriving DecidableEq, Repr

/-- The payload of one `gfx_hal::pso::DescriptorSetWrite` descriptor. -/
inductive DescriptorKind where
  | image (layout : Layout)
  | sampler
  deriving DecidableEq, Repr

/-- One descriptor-set write (loaded_image.rs:126-142). -/
structure DescriptorWrite where
  binding : Nat
  array_offset : Nat
  descriptor : DescriptorKind
  deriving DecidableEq, Repr

/-- Device calls observable in an execution trace. -/
inductive DeviceCall where
  | createBuffer (size : Nat) (usage : BufferUsage)
  | allocateMemory (memory_type_id : Nat) (size : Nat)
  | bindBufferMemory
  | mapMemory (lo hi : Nat)
  | acquireMappingWriter (lo hi : Nat)
  | releaseMappingWriter
  | createImage (width height : Nat)
  | bindImageMemory
  | createImageView
  | createSampler (filter : Filter)
  | allocateDescriptorSet
  | acquireCommandBuffer
  | beginCmd
  | pipelineBarrier (srcStage dstStage : PipelineStage)
      (srcAccess : ImageAccess) (srcLayout : Layout)
      (dstAccess : ImageAccess) (dstLayout : Layout)
  | copyBufferToImage (copy : BufferImageCopy)
  | finishCmd
  | createFence
  | submitWithoutSemaphores
  | waitForFence
  | destroyFence
  | freeCommandBuffer
  | writeDescriptorSets (writes : List DescriptorWrite)
  | destroyBuffer
  | freeMemory
  | destroySampler
  | destroyImage
  | destroyImageView
  deriving DecidableEq, Repr

/-- The error taxonomy of errors.rs, one constructor per variant reachable
from the modelled code (`BufferBundleError::Creation`,
`BufferError::{MemoryId, Allocate, Bind}`, the raw `map_memory` failure,
and `LoadedImageError`). -/
inductive GfxError where
  | bufferCreation
  | memoryTypeNotFound
  | allocate
  | bind
  | mapFailed
  | acquireMappingWriter
  | releaseMappingWriter
  | createImage
  | imageView
  | sampler
  | descriptorAllocation
  | uploadFence
  | waitForFence
  deriving DecidableEq, Repr

/-- Outcome of a modelled operation: normal return, a propagated
`failure::Error`, or a Rust panic. -/
inductive Outcome (α : Type) where
  | ok (a : α)
  | err (e : GfxError)
  | panicked
  deriving DecidableEq, Repr

/-- `true` exactly on `Outcome.ok`. -/
def Outcome.isOk {α : Type} : Outcome α → Bool
  | .ok _ => true
  | _ => false

/-- Device oracle: the device-supplied tables and limits, and the outcome
of each fallible device call (one flag per call site). -/
structure Oracle where
  memory_types : List Nat
  buffer_req : Nat → Requirements
  image_req : Requirements
  pitch_align : Nat
  create_buffer_ok : Bool
  buffer_allocate_ok : Bool
  buffer_bind_ok : Bool
  map_ok : Bool
  acquire_writer_ok : Bool
  release_writer_ok : Bool
  create_image_ok : Bool
  image_allocate_ok : Bool
  image_bind_ok : Bool
  image_view_ok : Bool
  sampler_ok : Bool
  descriptor_ok : Bool
  create_fence_ok : Bool
  wait_fence_ok : Bool

/-- The CPU-visible state retained by a constructed `BufferBundle`
(buffer_bundle.rs:12-18): its memory requirements and whether a mapped
pointer is present. -/
structure BufferBundleState where
  requirements : Requirements
  mapped : Bool
  deriving DecidableEq, Repr

/-- `BufferBundle::new(adapter, device, size, usage, map_it)`
(buffer_bundle.rs:21-68): create the buffer, query requirements, select a
CPU_VISIBLE memory type, allocate `requirements.size`, bind at offset 0,
optionally map the full range; each fallible step propagates its error. -/
def BufferBundle.new (o : Oracle) (size : Nat) (usage : BufferUsage)
    (map_it : Bool) : List DeviceCall × Outcome BufferBundleState :=
  if !o.create_buffer_ok then ([.createBuffer size usage], .err .bufferCreation)
  else
    let req := o.buffer_req size
    match find_memory_type_id o.memory_types req.type_mask CPU_VISIBLE with
    | none => ([.createBuffer size usage], .err .memoryTypeNotFound)
    | some id =>
      if !o.buffer_allocate_ok then
        ([.createBuffer size usage, .allocateMemory id req.size], .err .allocate)
      else if !o.buffer_bind_ok then
        ([.createBuffer size usage, .allocateMemory id req.size,
          .bindBufferMemory], .err .bind)
      else if map_it then
        if !o.map_ok then
          ([.createBuffer size usage, .allocateMemory id req.size,
            .bindBufferMemory, .mapMemory 0 req.size], .err .mapFailed)
        else
          ([.createBuffer size usage, .allocateMemory id req.size,
            .bindBufferMemory, .mapMemory 0 req.size],
           .ok { requirements := req, mapped := true })
      else
        ([.createBuffer size usage, .allocateMemory id req.size,
          .bindBufferMemory],
         .ok { requirements := req, mapped := false })

/-- `BufferBundle::manually_drop(device)` (buffer_bundle.rs:91-95):
`destroy_buffer` then `free_memory`, in that order. -/
def BufferBundle.manually_drop : List DeviceCall :=
  [.destroyBuffer, .freeMemory]

/-- `LoadedImage::manually_drop(device)` (loaded_image.rs:349-355):
`destroy_sampler`, `destroy_image`, `destroy_image_view`, `free_memory`,
in that order. -/
def LoadedImage.manually_drop : List DeviceCall :=
  [.destroySampler, .destroyImage, .destroyImageView, .freeMemory]

/-- The row-copy loop of `create_staging_buffer` (loaded_image.rs:227-232):
`for y in 0..height`, `row_start = &img[y*row_size..(y+1)*row_size]`,
`writer[y*row_pitch .. y*row_pitch + row_size].copy_from_slice(row_start)`.
Either slice indexing panics when out of range (`wsize` is the writer
length, `requirements.size`); the flag records whether the loop panicked. -/
def rowCopyLoop (img : List Nat) (row_size rp wsize height : Nat) :
    Bool × Mem :=
  (List.range height).foldl
    (fun acc y =>
      if acc.1 then acc
      else if (y + 1) * row_size ≤ img.length ∧ y * rp + row_size ≤ wsize then
        (false, writeBytes acc.2 (y * rp) ((img.drop (y * row_size)).take row_size))
      else (true, acc.2))
    (false, fun _ => none)

/-- The staging-buffer value returned by `create_staging_buffer`: the
bundle and the `buffer_width` (`row_pitch / 4`) it computes. -/
structure StagingBuffer where
  bundle : BufferBundleState
  buffer_width : Nat
  deriving DecidableEq, Repr

/-- `LoadedImage::create_staging_buffer(adapter, device, img, width,
height)` (loaded_image.rs:196-242): compute `row_pitch` (with
`debug_assert!(row_pitch >= row_size)`), create a `TRANSFER_SRC` buffer of
`row_pitch * height` bytes with `map_it = false`, acquire a mapping writer
over `0..requirements.size`, run the row-copy loop, release the writer,
and return the bundle plus `row_pitch / 4`. -/
def create_staging_buffer (o : Oracle) (img : List Nat)
    (width height : Nat) : List DeviceCall × Outcome StagingBuffer :=
  let row_size := 4 * width
  let rp := row_pitch width o.pitch_align
  if rp < row_size then ([], .panicked)
  else
    let required_bytes := rp * height
    match BufferBundle.new o required_bytes .TRANSFER_SRC false with
    | (tr, .err e) => (tr, .err e)
    | (tr, .panicked) => (tr, .panicked)
    | (tr, .ok bundle) =>
      if !o.acquire_writer_ok then
        (tr ++ [.acquireMappingWriter 0 bundle.requirements.size],
         .err .acquireMappingWriter)
      else if (rowCopyLoop img row_size rp bundle.requirements.size height).1 then
        (tr ++ [.acquireMappingWriter 0 bundle.requirements.size], .panicked)
      else if !o.release_writer_ok then
        (tr ++ [.acquireMappingWriter 0 bundle.requirements.size,
          .releaseMappingWriter], .err .releaseMappingWriter)
      else
        (tr ++ [.acquireMappingWriter 0 bundle.requirements.size,
          .releaseMappingWriter],
         .ok { bundle := bundle, buffer_width := rp / 4 })

/-- Destination offset triple (`gfx_hal::image::Offset`). -/
structure Offset3 where
  x : Int
  y : Int
  z : Int
  deriving DecidableEq, Repr

/-- First pipeline barrier (loaded_image.rs:260-278):
`(Access::empty, Undefined) -> (TRANSFER_WRITE, TransferDstOptimal)`,
stages `TOP_OF_PIPE -> TRANSFER`. -/
def firstBarrier : DeviceCall :=
  .pipelineBarrier .TOP_OF_PIPE .TRANSFER
    .empty .Undefined .TRANSFER_WRITE .TransferDstOptimal

/-- Second pipeline barrier (loaded_image.rs:305-326):
`(TRANSFER_WRITE, TransferDstOptimal) -> (SHADER_READ,
ShaderReadOnlyOptimal)`, stages `TRANSFER -> FRAGMENT_SHADER`. -/
def secondBarrier : DeviceCall :=
  .pipelineBarrier .TRANSFER .FRAGMENT_SHADER
    .TRANSFER_WRITE .TransferDstOptimal .SHADER_READ .ShaderReadOnlyOptimal

/-- `LoadedImage::load_staging_buffer_into_image_object` (loaded_image.rs:
244-347). Note that the recorded `BufferImageCopy` hard-codes
`image_offset: Offset { x: 0, y: 0, z: 0 }` (loaded_image.rs:294): the
`image_offset` argument received at loaded_image.rs:250 is never used. -/
def load_staging_buffer_into_image_object (o : Oracle)
    (buffer_width image_width image_height : Nat) (image_offset : Offset3) :
    List DeviceCall × Outcome Unit :=
  let recorded : List DeviceCall :=
    [.acquireCommandBuffer, .beginCmd,
     firstBarrier,
     .copyBufferToImage
       { buffer_offset := 0
         buffer_width := buffer_width
         buffer_height := image_height
         offset_x := 0, offset_y := 0, offset_z := 0
         extent_width := image_width
         extent_height := image_height
         extent_depth := 1 },
     secondBarrier, .finishCmd]
  if !o.create_fence_ok then (recorded ++ [.createFence], .err .uploadFence)
  else if !o.wait_fence_ok then
    (recorded ++ [.createFence, .submitWithoutSemaphores, .waitForFence],
     .err .waitForFence)
  else
    (recorded ++ [.createFence, .submitWithoutSemaphores, .waitForFence,
      .destroyFence, .freeCommandBuffer], .ok ())

/-- `Vec2Int` (utilities.rs, used as the `i32` pair fed into
`gfx_hal::image::Offset` at loaded_image.rs:179-183). -/
structure Vec2Int where
  x : Int
  y : Int
  deriving DecidableEq, Repr

/-- `LoadedImage::edit_image(width, height, offset, data, ...)`
(loaded_image.rs:151-194): create the staging buffer, run the copy/submit/
wait step with destination offset `(offset.x, offset.y, 0)`, then — only
on the success path, since each `?` returns early — `manually_drop` the
staging bundle. -/
def edit_image (o : Oracle) (width height : Nat) (offset : Vec2Int)
    (data : List Nat) : List DeviceCall × Outcome Unit :=
  match create_staging_buffer o data width height with
  | (tr, .err e) => (tr, .err e)
  | (tr, .panicked) => (tr, .panicked)
  | (tr, .ok staging) =>
    match load_staging_buffer_into_image_object o staging.buffer_width
        width height ⟨offset.x, offset.y, 0⟩ with
    | (tr2, .err e) => (tr ++ tr2, .err e)
    | (tr2, .panicked) => (tr ++ tr2, .panicked)
    | (tr2, .ok _) => (tr ++ tr2 ++ BufferBundle.manually_drop, .ok ())

/-- The two descriptor writes recorded at loaded_image.rs:126-142:
binding 0 = image view at `ShaderReadOnlyOptimal`, binding 1 = sampler. -/
def theDescriptorWrites : List DescriptorWrite :=
  [{ binding := 0, array_offset := 0, descriptor := .image .ShaderReadOnlyOptimal },
   { binding := 1, array_offset := 0, descriptor := .sampler }]

/-- `LoadedImage::allocate_and_create` (loaded_image.rs:29-149): create
the image, select a DEVICE_LOCAL memory type, allocate and bind, create
view and sampler, allocate a descriptor set (the `PipelineBundle`
collaborator, pipeline_bundle.rs, is outside src/ and is modelled by the
`descriptor_ok` oracle flag per the collaborator interface), run
`edit_image` at offset `(0, 0)`, then write the descriptor set. -/
def allocate_and_create (o : Oracle) (img : List Nat) (width height : Nat)
    (filter : Filter) : List DeviceCall × Outcome Unit :=
  if !o.create_image_ok then ([.createImage width height], .err .createImage)
  else
    let req := o.image_req
    match find_memory_type_id o.memory_types req.type_mask DEVICE_LOCAL with
    | none => ([.createImage width height], .err .memoryTypeNotFound)
    | some id =>
      if !o.image_allocate_ok then
        ([.createImage width height, .allocateMemory id req.size], .err .allocate)
      else if !o.image_bind_ok then
        ([.createImage width height, .allocateMemory id req.size,
          .bindImageMemory], .err .bind)
      else if !o.image_view_ok then
        ([.createImage width height, .allocateMemory id req.size,
          .bindImageMemory, .createImageView], .err .imageView)
      else if !o.sampler_ok then
        ([.createImage width height, .allocateMemory id req.size,
          .bindImageMemory, .createImageView, .createSampler filter],
         .err .sampler)
      else if !o.descriptor_ok then
        ([.createImage width height, .allocateMemory id req.size,
          .bindImageMemory, .createImageView, .createSampler filter,
          .allocateDescriptorSet], .err .descriptorAllocation)
      else
        let pre : List DeviceCall :=
          [.createImage width height, .allocateMemory id req.size,
           .bindImageMemory, .createImageView, .createSampler filter,
           .allocateDescriptorSet]
        match edit_image o width height ⟨0, 0⟩ img with
        | (tr2, .err e) => (pre ++ tr2, .err e)
        | (tr2, .panicked) => (pre ++ tr2, .panicked)
        | (tr2, .ok _) =>
          (pre ++ tr2 ++ [.writeDescriptorSets theDescriptorWrites], .ok ())

/-- A concrete device oracle on which every device call succeeds: one
memory type carrying both CPU_VISIBLE and DEVICE_LOCAL, buffer
requirements equal to the requested size with type mask 1, and pitch
alignment 4. Used to exercise the model on concrete inputs. -/
def oracleAllOk : Oracle :=
  { memory_types := [3], buffer_req := fun s => ⟨s, 1⟩, image_req := ⟨16, 1⟩,
    pitch_align := 4, create_buffer_ok := true, buffer_allocate_ok := true,
    buffer_bind_ok := true, map_ok := true, acquire_writer_ok := true,
    release_writer_ok := true, create_image_ok := true,
    image_allocate_ok := true, image_bind_ok := true, image_view_ok := true,
    sampler_ok := true, descriptor_ok := true, create_fence_ok := true,
    wait_fence_ok := true }

/-- Is this device call a recorded `copy_buffer_to_image`? -/
def isCopyCall : DeviceCall → Bool
  | .copyBufferToImage _ => true
  | _ => false

/-- Device calls that `BufferBundle::new` can issue. -/
def isBufferSetupCall : DeviceCall → Bool
  | .createBuffer _ _ => true
  | .allocateMemory _ _ => true
  | .bindBufferMemory => true
  | .mapMemory _ _ => true
  | _ => false

/-- Device calls that `create_staging_buffer` can issue. -/
def isStagingSetupCall : DeviceCall → Bool
  | .acquireMappingWriter _ _ => true
  | .releaseMappingWriter => true
  | c => isBufferSetupCall c

/-- Device calls that `load_staging_buffer_into_image_object` can issue. -/
def isTransferCall : DeviceCall → Bool
  | .acquireCommandBuffer => true
  | .beginCmd => true
  | .pipelineBarrier _ _ _ _ _ _ => true
  | .copyBufferToImage _ => true
  | .finishCmd => true
  | .createFence => true
  | .submitWithoutSemaphores => true
  | .waitForFence => true
  | .destroyFence => true
  | .freeCommandBuffer => true
  | _ => false

/-! ## Helper lemmas -/

/-- In-range `writeBytes` reads give the written byte. -/
theorem writeBytes_in (mem : Mem) (dest : Nat) (bytes : List Nat) (a : Nat)
    (h : dest ≤ a ∧ a < dest + bytes.length) :
    writeBytes mem dest bytes a = bytes.get? (a - dest) := by
  unfold writeBytes
  rw [if_pos h]

/-- Out-of-range `writeBytes` reads fall through to the old contents. -/
theorem writeBytes_out (mem : Mem) (dest : Nat) (bytes : List Nat) (a : Nat)
    (h : ¬(dest ≤ a ∧ a < dest + bytes.length)) :
    writeBytes mem dest bytes a = mem a := by
  unfold writeBytes
  rw [if_neg h]

/-- Masking with the u32 complement of `2^k - 1` clears the low `k` bits:
for `x < 2^32` and `k ≤ 32`, `x &&& (2^32 - 2^k) = 2^k * (x / 2^k)`. -/
theorem land_clear_low_bits (x k : Nat) (hx : x < 2 ^ 32) (hk : k ≤ 32) :
    x &&& (2 ^ 32 - 2 ^ k) = 2 ^ k * (x / 2 ^ k) := by
  apply Nat.eq_of_testBit_eq
  intro i
  have hmask : (2 : Nat) ^ 32 - 2 ^ k = 2 ^ k * (2 ^ (32 - k) - 1) := by
    rw [Nat.mul_sub_left_distrib, Nat.mul_one, ← pow_add]
    congr 2
    omega
  rw [Nat.testBit_and, hmask, Nat.testBit_mul_pow_two, Nat.testBit_mul_pow_two,
    Nat.testBit_two_pow_sub_one, ← Nat.shiftRight_eq_div_pow, Nat.testBit_shiftRight]
  by_cases hik : k ≤ i
  · by_cases hi32 : i < 32
    · simp [ge_iff_le, hik, show k + (i - k) = i from by omega,
        show i - k < 32 - k from by omega]
    · have hxi : x.testBit i = false :=
        Nat.testBit_lt_two_pow
          (lt_of_lt_of_le hx (Nat.pow_le_pow_right (by norm_num) (by omega)))
      have hxi' : x.testBit (k + (i - k)) = false := by
        rwa [show k + (i - k) = i from by omega]
      simp [hxi, hxi']
  · simp [ge_iff_le, hik]

/-- Without u32 overflow, the pitch computation rounds `4 * width` up to
the next multiple of the (power-of-two) alignment. -/
theorem row_pitch_eq (width k : Nat)
    (hov : 4 * width + (2 ^ k - 1) < 2 ^ 32) :
    row_pitch width (2 ^ k) = 2 ^ k * ((4 * width + (2 ^ k - 1)) / 2 ^ k) := by
  have hpos : 0 < (2 : Nat) ^ k := Nat.two_pow_pos k
  have hle : (2 : Nat) ^ k ≤ 2 ^ 32 := by omega
  have hk32 : k ≤ 32 := (Nat.pow_le_pow_iff_right (by norm_num)).mp hle
  simp only [row_pitch]
  rw [Nat.mod_eq_of_lt (show (2 : Nat) ^ k - 1 < 2 ^ 32 from by omega),
    Nat.mod_eq_of_lt hov,
    show (2 : Nat) ^ 32 - 1 - (2 ^ k - 1) = 2 ^ 32 - 2 ^ k from by omega,
    land_clear_low_bits _ _ hov hk32]

/-- Without u32 overflow, the computed row pitch is at least the packed
row size and is a multiple of the alignment. -/
theorem row_pitch_bounds (width k : Nat)
    (hov : 4 * width + (2 ^ k - 1) < 2 ^ 32) :
    4 * width ≤ row_pitch width (2 ^ k) ∧ row_pitch width (2 ^ k) % 2 ^ k = 0 := by
  rw [row_pitch_eq width k hov]
  constructor
  · have hdm := Nat.div_add_mod (4 * width + (2 ^ k - 1)) (2 ^ k)
    have hlt : (4 * width + (2 ^ k - 1)) % 2 ^ k < 2 ^ k :=
      Nat.mod_lt _ (Nat.two_pow_pos k)
    have hpos : 0 < (2 : Nat) ^ k := Nat.two_pow_pos k
    omega
  · exact Nat.mul_mod_right _ _

/-- The row-copy loop never panics and produces exactly the row-padded
image contents, provided every row's source and destination slices are in
range. -/
theorem rowCopyLoop_spec (img : List Nat) (row_size rp wsize : Nat)
    (hrs : row_size ≤ rp) :
    ∀ height : Nat,
      (∀ y, y < height →
        (y + 1) * row_size ≤ img.length ∧ y * rp + row_size ≤ wsize) →
      (rowCopyLoop img row_size rp wsize height).1 = false ∧
      (∀ y i, y < height → i < row_size →
        (rowCopyLoop img row_size rp wsize height).2 (y * rp + i) =
          img.get? (y * row_size + i)) ∧
      (∀ a, (∀ y, y < height → ¬(y * rp ≤ a ∧ a < y * rp + row_size)) →
        (rowCopyLoop img row_size rp wsize height).2 a = none) := by
  intro height
  induction height with
  | zero =>
    intro _
    exact ⟨rfl, fun y i hy _ => by omega, fun a _ => rfl⟩
  | succ h ih =>
    intro hin
    have hinh : ∀ y, y < h →
        (y + 1) * row_size ≤ img.length ∧ y * rp + row_size ≤ wsize :=
      fun y hy => hin y (by omega)
    obtain ⟨ihflag, ihrow, ihnone⟩ := ih hinh
    have hcond := hin h (by omega)
    have hstep : rowCopyLoop img row_size rp wsize (h + 1) =
        (false, writeBytes (rowCopyLoop img row_size rp wsize h).2 (h * rp)
          ((img.drop (h * row_size)).take row_size)) := by
      unfold rowCopyLoop
      rw [List.range_succ, List.foldl_append]
      show (if (rowCopyLoop img row_size rp wsize h).1 then _ else _) = _
      rw [ihflag]
      simp only [Bool.false_eq_true, if_false]
      rw [if_pos hcond]
    have hbl : ((img.drop (h * row_size)).take row_size).length = row_size := by
      rw [List.length_take, List.length_drop]
      have := hcond.1
      rw [Nat.succ_mul] at this
      omega
    refine ⟨by rw [hstep], ?_, ?_⟩
    · intro y i hy hi
      rw [hstep]
      dsimp only
      by_cases hyh : y = h
      · subst hyh
        rw [writeBytes_in _ _ _ _ (by rw [hbl]; omega)]
        rw [show y * rp + i - y * rp = i from by omega]
        rw [List.get?_take hi, List.get?_drop]
      · have hylt : y < h := by omega
        have hmul : (y + 1) * rp ≤ h * rp := mul_le_mul_right' (by omega) rp
        rw [Nat.succ_mul] at hmul
        rw [writeBytes_out _ _ _ _ (by rw [hbl]; omega)]
        exact ihrow y i hylt hi
    · intro a ha
      rw [hstep]
      dsimp only
      have hah := ha h (by omega)
      rw [writeBytes_out _ _ _ _ (by rw [hbl]; omega)]
      exact ihnone a (fun y hy => ha y (by omega))

/-- A padding address `y * rp + i` with `row_size ≤ i < rp` lies in no
row's written range. -/
theorem row_ranges_disjoint {rp row_size y i y' : Nat} (hrs : row_size ≤ rp)
    (hi4 : row_size ≤ i) (hirp : i < rp) :
    ¬(y' * rp ≤ y * rp + i ∧ y * rp + i < y' * rp + row_size) := by
  rintro ⟨ha, hb⟩
  rcases Nat.lt_trichotomy y' y with h | rfl | h
  · have hmul : (y' + 1) * rp ≤ y * rp := mul_le_mul_right' (by omega) rp
    rw [Nat.succ_mul] at hmul
    omega
  · omega
  · have hmul : (y + 1) * rp ≤ y' * rp := mul_le_mul_right' (by omega) rp
    rw [Nat.succ_mul] at hmul
    omega

/-- Successful run of `BufferBundle::new` with `map_it = false`: the trace
and result it returns. -/
theorem BufferBundle_new_ok (o : Oracle) (size : Nat) (usage : BufferUsage)
    (id : Nat) (h1 : o.create_buffer_ok = true)
    (hid : find_memory_type_id o.memory_types (o.buffer_req size).type_mask
      CPU_VISIBLE = some id)
    (h2 : o.buffer_allocate_ok = true) (h3 : o.buffer_bind_ok = true) :
    BufferBundle.new o size usage false =
      ([.createBuffer size usage, .allocateMemory id (o.buffer_req size).size,
        .bindBufferMemory],
       .ok { requirements := o.buffer_req size, mapped := false }) := by
  simp only [BufferBundle.new, h1, hid, h2, h3]
  rfl

/-- `find?` over `enumFrom n l` returning `some (i, props)` means index `i`
holds `props`, satisfies the predicate, and every earlier index fails it. -/
theorem findEnumFrom_some (p : Nat × Nat → Bool) :
    ∀ (l : List Nat) (n i props : Nat),
      (List.enumFrom n l).find? p = some (i, props) →
      n ≤ i ∧ l.get? (i - n) = some props ∧ p (i, props) = true ∧
        ∀ j q, j < i - n → l.get? j = some q → p (n + j, q) = false := by
  intro l
  induction l with
  | nil => intro n i props h; simp [List.enumFrom] at h
  | cons a l ih =>
    intro n i props h
    rw [show List.enumFrom n (a :: l) = (n, a) :: List.enumFrom (n + 1) l from rfl,
      List.find?_cons] at h
    cases hpa : p (n, a) with
    | true =>
      rw [hpa] at h
      simp only [Option.some.injEq, Prod.mk.injEq] at h
      obtain ⟨rfl, rfl⟩ := h
      exact ⟨Nat.le_refl n, by simp, hpa, fun j q hj _ => by omega⟩
    | false =>
      rw [hpa] at h
      obtain ⟨h1, h2, h3, h4⟩ := ih (n + 1) i props h
      refine ⟨by omega, ?_, h3, ?_⟩
      · rw [show i - n = (i - (n + 1)) + 1 from by omega]
        exact h2
      · intro j q hj hq
        cases j with
        | zero =>
          simp only [List.get?] at hq
          obtain rfl : a = q := by injection hq
          simpa using hpa
        | succ m =>
          have hm : m < i - (n + 1) := by omega
          have := h4 m q hm hq
          rw [show n + (m + 1) = (n + 1) + m from by omega]
          exact this

/-- `find?` over `enumFrom n l` returning `none` means every index fails
the predicate. -/
theorem findEnumFrom_none (p : Nat × Nat → Bool) :
    ∀ (l : List Nat) (n : Nat),
      (List.enumFrom n l).find? p = none →
      ∀ j q, l.get? j = some q → p (n + j, q) = false := by
  intro l
  induction l with
  | nil => intro n _ j q hq; simp at hq
  | cons a l ih =>
    intro n h j q hq
    rw [show List.enumFrom n (a :: l) = (n, a) :: List.enumFrom (n + 1) l from rfl,
      List.find?_cons] at h
    cases hpa : p (n, a) with
    | true => rw [hpa] at h; simp at h
    | false =>
      rw [hpa] at h
      cases j with
      | zero =>
        simp only [List.get?] at hq
        obtain rfl : a = q := by injection hq
        simpa using hpa
      | succ m =>
        have := ih (n + 1) h m q hq
        rw [show n + (m + 1) = (n + 1) + m from by omega]
        exact this

/-- Unfolding characterization of `matchesAt`. -/
theorem matchesAt_iff (types : List Nat) (mask req i : Nat) :
    matchesAt types mask req i = true ↔
      ∃ props, types.get? i = some props ∧
        ((mask &&& (1 <<< i) != 0) && propsContains props req) = true := by
  unfold matchesAt
  cases h : types.get? i <;> simp [h]

/-- `isBufferSetupCall` calls are also `isStagingSetupCall` calls. -/
theorem bufferSetup_isStagingSetup (c : DeviceCall)
    (h : isBufferSetupCall c = true) : isStagingSetupCall c = true := by
  cases c <;> simp_all [isBufferSetupCall, isStagingSetupCall]

/-- Every device call issued by `BufferBundle::new` is a buffer-setup call. -/
theorem bufferNew_calls (o : Oracle) (size : Nat) (usage : BufferUsage) (m : Bool) :
    ∀ c ∈ (BufferBundle.new o size usage m).1, isBufferSetupCall c = true := by
  intro c hc
  simp only [BufferBundle.new] at hc
  repeat' split at hc
  all_goals fin_cases hc <;> rfl

/-- Every device call issued by `create_staging_buffer` is a staging-setup call (never a destroy, free, or descriptor-write call). -/
theorem create_staging_calls (o : Oracle) (img : List Nat) (w h : Nat) :
    ∀ c ∈ (create_staging_buffer o img w h).1, isStagingSetupCall c = true := by
  intro c hc
  have hb := bufferNew_calls o (row_pitch w o.pitch_align * h) .TRANSFER_SRC false
  by_cases h0 : row_pitch w o.pitch_align < 4 * w
  · simp only [create_staging_buffer, if_pos h0] at hc
    simp at hc
  · rcases hnew : BufferBundle.new o (row_pitch w o.pitch_align * h)
      .TRANSFER_SRC false with ⟨tr, res⟩
    rw [hnew] at hb
    have hbt : ∀ x ∈ tr, isBufferSetupCall x = true := by simpa using hb
    cases res with
    | err e =>
      simp only [create_staging_buffer, if_neg h0, hnew] at hc
      exact bufferSetup_isStagingSetup c (hbt c hc)
    | panicked =>
      simp only [create_staging_buffer, if_neg h0, hnew] at hc
      exact bufferSetup_isStagingSetup c (hbt c hc)
    | ok bundle =>
      simp only [create_staging_buffer, if_neg h0, hnew] at hc
      repeat' split at hc
      all_goals
        simp only [List.mem_append, List.mem_cons, List.not_mem_nil,
          or_false] at hc
      all_goals
        first
          | (rcases hc with hc | hc | hc
             · exact bufferSetup_isStagingSetup c (hbt c hc)
             · subst hc; rfl
             · subst hc; rfl)
          | (rcases hc with hc | hc
             · exact bufferSetup_isStagingSetup c (hbt c hc)
             · subst hc; rfl)

/-- Every device call issued by `load_staging_buffer_into_image_object` is a transfer call. -/
theorem load_staging_calls (o : Oracle) (bw iw ih : Nat) (off : Offset3) :
    ∀ c ∈ (load_staging_buffer_into_image_object o bw iw ih off).1,
      isTransferCall c = true := by
  intro c hc
  simp only [load_staging_buffer_into_image_object] at hc
  repeat' split at hc
  all_goals fin_cases hc <;> rfl

/-- A successful copy/submit step waited on the upload fence. -/
theorem load_ok_waitForFence (o : Oracle) (bw iw ih : Nat) (off : Offset3)
    (hok : (load_staging_buffer_into_image_object o bw iw ih off).2 = .ok ()) :
    DeviceCall.waitForFence ∈
      (load_staging_buffer_into_image_object o bw iw ih off).1 := by
  cases h1 : o.create_fence_ok with
  | false => exfalso; simp [load_staging_buffer_into_image_object, h1] at hok
  | true =>
    cases h2 : o.wait_fence_ok with
    | false =>
      exfalso; simp [load_staging_buffer_into_image_object, h1, h2] at hok
    | true =>
      simp [load_staging_buffer_into_image_object, h1, h2]

/-- `edit_image` either succeeds, with a trace ending in the staging release (`manually_drop`) after the fence wait, or fails with a trace containing neither `destroy_buffer` nor `free_memory` for the staging bundle. -/
theorem edit_image_cases (o : Oracle) (w h : Nat) (off : Vec2Int) (d : List Nat) :
    ((edit_image o w h off d).2 = .ok () ∧
      ∃ pre, (edit_image o w h off d).1 = pre ++ BufferBundle.manually_drop ∧
        DeviceCall.waitForFence ∈ pre) ∨
    ((edit_image o w h off d).2 ≠ .ok () ∧
      DeviceCall.destroyBuffer ∉ (edit_image o w h off d).1 ∧
      DeviceCall.freeMemory ∉ (edit_image o w h off d).1) := by
  rcases hcs : create_staging_buffer o d w h with ⟨tr, res⟩
  have hstag := create_staging_calls o d w h
  rw [hcs] at hstag
  cases res with
  | err e =>
    right
    simp only [edit_image, hcs]
    refine ⟨by simp, ?_, ?_⟩ <;>
      · intro hmem
        have := hstag _ hmem
        simp [isStagingSetupCall, isBufferSetupCall] at this
  | panicked =>
    right
    simp only [edit_image, hcs]
    refine ⟨by simp, ?_, ?_⟩ <;>
      · intro hmem
        have := hstag _ hmem
        simp [isStagingSetupCall, isBufferSetupCall] at this
  | ok staging =>
    rcases hld : load_staging_buffer_into_image_object o staging.buffer_width
        w h ⟨off.x, off.y, 0⟩ with ⟨tr2, res2⟩
    have hload := load_staging_calls o staging.buffer_width w h ⟨off.x, off.y, 0⟩
    rw [hld] at hload
    cases res2 with
    | err e =>
      right
      simp only [edit_image, hcs, hld]
      refine ⟨by simp, ?_, ?_⟩ <;>
        · intro hmem
          rcases List.mem_append.mp hmem with hm | hm
          · have := hstag _ hm
            simp [isStagingSetupCall, isBufferSetupCall] at this
          · have := hload _ hm
            simp [isTransferCall] at this
    | panicked =>
      right
      simp only [edit_image, hcs, hld]
      refine ⟨by simp, ?_, ?_⟩ <;>
        · intro hmem
          rcases List.mem_append.mp hmem with hm | hm
          · have := hstag _ hm
            simp [isStagingSetupCall, isBufferSetupCall] at this
          · have := hload _ hm
            simp [isTransferCall] at this
    | ok u =>
      left
      cases u
      have h2 : (edit_image o w h off d).2 = .ok () := by
        simp [edit_image, hcs, hld]
      have h1 : (edit_image o w h off d).1 =
          (tr ++ tr2) ++ BufferBundle.manually_drop := by
        simp [edit_image, hcs, hld]
      refine ⟨h2, tr ++ tr2, h1, ?_⟩
      have hw := load_ok_waitForFence o staging.buffer_width w h
        ⟨off.x, off.y, 0⟩ (by rw [hld])
      rw [hld] at hw
      exact List.mem_append.mpr (.inr hw)

/-- Every call in an `edit_image` trace is a staging-setup call, a transfer call, or part of the staging release. -/
theorem edit_image_calls (o : Oracle) (w h : Nat) (off : Vec2Int) (d : List Nat) :
    ∀ c ∈ (edit_image o w h off d).1,
      isStagingSetupCall c = true ∨ isTransferCall c = true ∨
        c ∈ BufferBundle.manually_drop := by
  rcases hcs : create_staging_buffer o d w h with ⟨tr, res⟩
  have hstag := create_staging_calls o d w h
  rw [hcs] at hstag
  cases res with
  | err e =>
    simp only [edit_image, hcs]
    exact fun c hc => .inl (hstag c hc)
  | panicked =>
    simp only [edit_image, hcs]
    exact fun c hc => .inl (hstag c hc)
  | ok staging =>
    rcases hld : load_staging_buffer_into_image_object o staging.buffer_width
        w h ⟨off.x, off.y, 0⟩ with ⟨tr2, res2⟩
    have hload := load_staging_calls o staging.buffer_width w h ⟨off.x, off.y, 0⟩
    rw [hld] at hload
    cases res2 with
    | err e =>
      simp only [edit_image, hcs, hld]
      intro c hc
      rcases List.mem_append.mp hc with hm | hm
      · exact .inl (hstag c hm)
      · exact .inr (.inl (hload c hm))
    | panicked =>
      simp only [edit_image, hcs, hld]
      intro c hc
      rcases List.mem_append.mp hc with hm | hm
      · exact .inl (hstag c hm)
      · exact .inr (.inl (hload c hm))
    | ok u =>
      simp only [edit_image, hcs, hld]
      intro c hc
      rcases List.mem_append.mp hc with hm | hm
      · rcases List.mem_append.mp hm with hm2 | hm2
        · exact .inl (hstag c hm2)
        · exact .inr (.inl (hload c hm2))
      · exact .inr (.inr hm)

/-- A successful `edit_image` waited on the upload fence. -/
theorem edit_ok_waitForFence (o : Oracle) (w h : Nat) (off : Vec2Int)
    (d : List Nat) (hok : (edit_image o w h off d).2 = .ok ()) :
    DeviceCall.waitForFence ∈ (edit_image o w h off d).1 := by
  rcases edit_image_cases o w h off d with ⟨_, pre, htr, hw⟩ | ⟨hne, _, _⟩
  · rw [htr]
    exact List.mem_append.mpr (.inl hw)
  · exact absurd hok hne

/-- `edit_image` never writes a descriptor set. -/
theorem edit_no_descriptor_write (o : Oracle) (w h : Nat) (off : Vec2Int)
    (d : List Nat) (ws : List DescriptorWrite) :
    DeviceCall.writeDescriptorSets ws ∉ (edit_image o w h off d).1 := by
  intro hmem
  rcases edit_image_calls o w h off d _ hmem with hcall | hcall | hcall
  · simp [isStagingSetupCall, isBufferSetupCall] at hcall
  · simp [isTransferCall] at hcall
  · simp [BufferBundle.manually_drop] at hcall


/-! ## Claims -/

/-- C2: the memory-type selector returns the lowest-indexed memory type
whose bit is set in the bitmask and whose property flags contain the
required properties; when one exists the selector succeeds (with an index
no later than any match); when none matches, `BufferBundle::new` and
`LoadedImage::allocate_and_create` fail with the `MemoryId`
(memory-type-not-found) error and issue no `allocate_memory` call.
Determinism holds because `find_memory_type_id` is a pure function of its
arguments. -/
theorem c2_memory_type_selector :
    (∀ (types : List Nat) (mask req i : Nat),
        find_memory_type_id types mask req = some i →
        matchesAt types mask req i = true ∧
          ∀ j, j < i → matchesAt types mask req j = false)
    ∧ (∀ (types : List Nat) (mask req i : Nat),
        matchesAt types mask req i = true →
        ∃ j, j ≤ i ∧ find_memory_type_id types mask req = some j)
    ∧ (∀ (o : Oracle) (size : Nat) (usage : BufferUsage) (map_it : Bool),
        o.create_buffer_ok = true →
        find_memory_type_id o.memory_types (o.buffer_req size).type_mask
          CPU_VISIBLE = none →
        (BufferBundle.new o size usage map_it).2 = .err .memoryTypeNotFound ∧
          ∀ id sz, DeviceCall.allocateMemory id sz ∉
            (BufferBundle.new o size usage map_it).1)
    ∧ (∀ (o : Oracle) (img : List Nat) (width height : Nat) (filter : Filter),
        o.create_image_ok = true →
        find_memory_type_id o.memory_types o.image_req.type_mask
          DEVICE_LOCAL = none →
        (allocate_and_create o img width height filter).2 =
            .err .memoryTypeNotFound ∧
          ∀ id sz, DeviceCall.allocateMemory id sz ∉
            (allocate_and_create o img width height filter).1) := by
  have key : ∀ (types : List Nat) (mask req i : Nat),
      find_memory_type_id types mask req = some i →
      matchesAt types mask req i = true ∧
        ∀ j, j < i → matchesAt types mask req j = false := by
    intro types mask req i h
    unfold find_memory_type_id at h
    obtain ⟨⟨i', props⟩, hfind, hfst⟩ := Option.map_eq_some'.mp h
    have hii : i' = i := hfst
    rw [hii] at hfind
    have henum : types.enum = List.enumFrom 0 types := rfl
    rw [henum] at hfind
    obtain ⟨_, h2, h3, h4⟩ := findEnumFrom_some _ types 0 i props hfind
    rw [Nat.sub_zero] at h2
    constructor
    · exact (matchesAt_iff types mask req i).mpr ⟨props, h2, h3⟩
    · intro j hj
      cases hq : types.get? j with
      | none => unfold matchesAt; rw [hq]
      | some q =>
        have := h4 j q (by omega) hq
        unfold matchesAt
        rw [hq]
        simpa using this
  refine ⟨key, ?_, ?_, ?_⟩
  · intro types mask req i hi
    cases hfind : find_memory_type_id types mask req with
    | none =>
      exfalso
      unfold find_memory_type_id at hfind
      have henum : types.enum = List.enumFrom 0 types := rfl
      rw [henum] at hfind
      have hnone := Option.map_eq_none'.mp hfind
      obtain ⟨props, hget, hp⟩ := (matchesAt_iff types mask req i).mp hi
      have := findEnumFrom_none _ types 0 hnone i props hget
      rw [Nat.zero_add] at this
      rw [this] at hp
      exact Bool.false_ne_true hp
    | some j =>
      refine ⟨j, ?_, rfl⟩
      by_contra hlt
      have := (key types mask req j hfind).2 i (by omega)
      rw [this] at hi
      exact Bool.false_ne_true hi
  · intro o size usage map_it hcb hfind
    simp only [BufferBundle.new, hcb, hfind]
    exact ⟨rfl, by intro id sz; simp⟩
  · intro o img width height filter hci hfind
    simp only [allocate_and_create, hci, hfind]
    exact ⟨rfl, by intro id sz; simp⟩

/-- C2 witness: on the table `[0, 3]` with bitmask `3` and required
properties `2` the selector returns index 1 (the lowest match), and on a
table with no CPU-visible type `BufferBundle::new` fails with the
memory-type-not-found error without allocating. -/
theorem c2_memory_type_selector_witness :
    (matchesAt [0, 3] 3 2 1 = true ∧ ∀ j, j < 1 → matchesAt [0, 3] 3 2 j = false)
    ∧ ((BufferBundle.new { oracleAllOk with memory_types := [1] }
          16 .TRANSFER_SRC false).2 = .err .memoryTypeNotFound) :=
  ⟨c2_memory_type_selector.1 [0, 3] 3 2 1 (by decide),
   (c2_memory_type_selector.2.2.1 { oracleAllOk with memory_types := [1] }
      16 .TRANSFER_SRC false rfl (by decide)).1⟩

/-- C3: the code is internally inconsistent about the unit of
`vertex_offset`: the assertion treats it as a byte offset
(`verts.len() * size_of::<T>() + vertex_offset <= requirements.size`)
while the copy multiplies it by the element size
(`map.offset((vertex_offset * size_of::<T>()) as isize)`). With
`requirements.size = 8`, element size 4, one element, `vertex_offset = 4`,
the assertion passes (`1*4 + 4 <= 8`) yet the copy writes bytes
`[16, 20)`, entirely outside `requirements.size`, and writes nothing at
the claimed range `[4, 8)`. -/
theorem c3_update_buffer_offset_unit_bug :
    (1 * 4 + 4 ≤ 8) ∧
    ∃ m, update_buffer 8 (some (fun _ => none)) 4 [[9, 9, 9, 9]] 4 =
        .ok (some m) ∧
      m 16 = some 9 ∧ ∀ a, a < 8 → m a = none := by
  refine ⟨by decide, writeBytes (fun _ => none) 16 [9, 9, 9, 9], rfl,
    by decide, by decide⟩

/-- C4: the claim fails in the source because of u32 truncation, and the
code contradicts its own `debug_assert!(row_pitch >= row_size)`
(loaded_image.rs:209). At `width = 2^30` and alignment 4, `row_size` is
`2^32`, the `as u32` cast truncates it to 0, and the computed
`row_pitch` is 0 — strictly below `4 * width` — so `create_staging_buffer`
panics on its debug assertion. -/
theorem c4_row_pitch_overflow_bug :
    row_pitch (2 ^ 30) 4 = 0 ∧
    ¬(4 * 2 ^ 30 ≤ row_pitch (2 ^ 30) 4) ∧
    ∀ (o : Oracle) (img : List Nat), o.pitch_align = 4 →
      (create_staging_buffer o img (2 ^ 30) 1).2 = .panicked := by
  refine ⟨by decide, by decide, ?_⟩
  intro o img h
  simp only [create_staging_buffer, h]
  rw [if_pos (by decide)]

/-- C4 witness: the panic reached on a concrete oracle. -/
theorem c4_row_pitch_overflow_bug_witness :
    (create_staging_buffer oracleAllOk [] (2 ^ 30) 1).2 = .panicked :=
  c4_row_pitch_overflow_bug.2.2 oracleAllOk [] rfl

/-- C5: when the upload is well-formed (power-of-two alignment, no u32
overflow in the pitch computation, `pixelData` at least `4*width*height`
bytes, device requirements at least the requested size) and the staging
steps succeed, `create_staging_buffer` creates the staging buffer with
size `rowPitch*height` and usage transfer-source, never maps it
persistently, and after the row-copy loop every row `y` holds
`pixelData[y*rowSize .. (y+1)*rowSize]` at buffer offset `y*rowPitch`
while the padding bytes in `[rowSize, rowPitch)` of each row stay
unwritten. -/
theorem c5_staging_upload (o : Oracle) (img : List Nat)
    (width height k : Nat)
    (halign : o.pitch_align = 2 ^ k)
    (hov : 4 * width + (2 ^ k - 1) < 2 ^ 32)
    (himg : 4 * width * height ≤ img.length)
    (hreq : ∀ s, s ≤ (o.buffer_req s).size)
    (h1 : o.create_buffer_ok = true) (h2 : o.buffer_allocate_ok = true)
    (h3 : o.buffer_bind_ok = true) (h4 : o.acquire_writer_ok = true)
    (h5 : o.release_writer_ok = true)
    (hfind : find_memory_type_id o.memory_types
      (o.buffer_req (row_pitch width o.pitch_align * height)).type_mask
      CPU_VISIBLE ≠ none) :
    (create_staging_buffer o img width height).2.isOk = true
    ∧ DeviceCall.createBuffer (row_pitch width o.pitch_align * height)
        .TRANSFER_SRC ∈ (create_staging_buffer o img width height).1
    ∧ (∀ lo hi, DeviceCall.mapMemory lo hi ∉
        (create_staging_buffer o img width height).1)
    ∧ (rowCopyLoop img (4 * width) (row_pitch width o.pitch_align)
        (o.buffer_req (row_pitch width o.pitch_align * height)).size
        height).1 = false
    ∧ (∀ y i, y < height → i < 4 * width →
        (rowCopyLoop img (4 * width) (row_pitch width o.pitch_align)
          (o.buffer_req (row_pitch width o.pitch_align * height)).size
          height).2 (y * row_pitch width o.pitch_align + i) =
          img.get? (y * (4 * width) + i))
    ∧ (∀ y i, y < height → 4 * width ≤ i → i < row_pitch width o.pitch_align →
        (rowCopyLoop img (4 * width) (row_pitch width o.pitch_align)
          (o.buffer_req (row_pitch width o.pitch_align * height)).size
          height).2 (y * row_pitch width o.pitch_align + i) = none) := by
  obtain ⟨id, hid⟩ := Option.ne_none_iff_exists'.mp hfind
  have hge : 4 * width ≤ row_pitch width o.pitch_align := by
    rw [halign]
    exact (row_pitch_bounds width k hov).1
  have hin : ∀ y, y < height → (y + 1) * (4 * width) ≤ img.length ∧
      y * row_pitch width o.pitch_align + 4 * width ≤
        (o.buffer_req (row_pitch width o.pitch_align * height)).size := by
    intro y hy
    constructor
    · calc (y + 1) * (4 * width) ≤ height * (4 * width) :=
            mul_le_mul_right' (by omega) _
        _ = 4 * width * height := by ring
        _ ≤ img.length := himg
    · have hmul : (y + 1) * row_pitch width o.pitch_align ≤
          height * row_pitch width o.pitch_align :=
        mul_le_mul_right' (by omega) _
      rw [Nat.succ_mul] at hmul
      have hcomm : height * row_pitch width o.pitch_align =
          row_pitch width o.pitch_align * height := Nat.mul_comm _ _
      have hw := hreq (row_pitch width o.pitch_align * height)
      omega
  have hloop := rowCopyLoop_spec img (4 * width) (row_pitch width o.pitch_align)
    (o.buffer_req (row_pitch width o.pitch_align * height)).size hge height hin
  have hrun : create_staging_buffer o img width height =
      ([.createBuffer (row_pitch width o.pitch_align * height) .TRANSFER_SRC,
        .allocateMemory id
          (o.buffer_req (row_pitch width o.pitch_align * height)).size,
        .bindBufferMemory,
        .acquireMappingWriter 0
          (o.buffer_req (row_pitch width o.pitch_align * height)).size,
        .releaseMappingWriter],
       .ok ⟨⟨o.buffer_req (row_pitch width o.pitch_align * height), false⟩,
            row_pitch width o.pitch_align / 4⟩) := by
    simp only [create_staging_buffer]
    rw [if_neg (show ¬ row_pitch width o.pitch_align < 4 * width from by omega),
      BufferBundle_new_ok o (row_pitch width o.pitch_align * height)
        .TRANSFER_SRC id h1 hid h2 h3]
    dsimp only
    rw [h4, h5]
    simp only [Bool.not_true, Bool.false_eq_true, if_false, hloop.1]
    rfl
  refine ⟨?_, ?_, ?_, hloop.1, hloop.2.1, ?_⟩
  · rw [hrun]; rfl
  · rw [hrun]; simp
  · intro lo hi; rw [hrun]; simp
  · intro y i hy h4w hirp
    exact hloop.2.2 _ (fun y' hy' => row_ranges_disjoint hge h4w hirp)

/-- C5 witness: width 1, height 2, alignment 4, 8 bytes of pixel data on
the all-success oracle: the staging run succeeds and row 1's first-row
bytes land at offset `rowPitch`. -/
theorem c5_staging_upload_witness :
    (create_staging_buffer oracleAllOk (List.range 8) 1 2).2.isOk = true ∧
    (rowCopyLoop (List.range 8) 4 (row_pitch 1 oracleAllOk.pitch_align)
      (oracleAllOk.buffer_req
        (row_pitch 1 oracleAllOk.pitch_align * 2)).size 2).2
      (1 * row_pitch 1 oracleAllOk.pitch_align + 3) =
      (List.range 8).get? (1 * 4 + 3) :=
  ⟨(c5_staging_upload oracleAllOk (List.range 8) 1 2 2 rfl (by decide)
      (by decide) (fun s => Nat.le_refl s) rfl rfl rfl rfl rfl (by decide)).1,
   (c5_staging_upload oracleAllOk (List.range 8) 1 2 2 rfl (by decide)
      (by decide) (fun s => Nat.le_refl s) rfl rfl rfl rfl rfl
      (by decide)).2.2.2.2.1 1 3 (by decide) (by decide)⟩

/-- C7: `BufferBundle::manually_drop` issues exactly destroy-buffer then
free-memory; `LoadedImage::manually_drop` issues exactly destroy-sampler,
destroy-image, destroy-image-view, then free-memory; in each sequence
every handle destruction precedes the memory free. -/
theorem c7_release_order :
    BufferBundle.manually_drop = [.destroyBuffer, .freeMemory]
    ∧ LoadedImage.manually_drop =
        [.destroySampler, .destroyImage, .destroyImageView, .freeMemory]
    ∧ BufferBundle.manually_drop.indexOf .destroyBuffer <
        BufferBundle.manually_drop.indexOf .freeMemory
    ∧ LoadedImage.manually_drop.indexOf .destroySampler <
        LoadedImage.manually_drop.indexOf .freeMemory
    ∧ LoadedImage.manually_drop.indexOf .destroyImage <
        LoadedImage.manually_drop.indexOf .freeMemory
    ∧ LoadedImage.manually_drop.indexOf .destroyImageView <
        LoadedImage.manually_drop.indexOf .freeMemory := by
  refine ⟨rfl, rfl, by decide, by decide, by decide, by decide⟩

/-- C9: with no mapped pointer present, an in-bounds `update_buffer` call
passes the assertion, skips the copy entirely (`if let Some(map)` falls
through), and returns normally — a silent no-op rather than an error. -/
theorem c9_update_buffer_unmapped_noop (reqSize elemSize vertex_offset : Nat)
    (verts : List (List Nat))
    (h : verts.length * elemSize + vertex_offset ≤ reqSize) :
    update_buffer reqSize none elemSize verts vertex_offset = .ok none := by
  unfold update_buffer
  rw [if_pos h]

/-- C9 witness: a concrete in-bounds call on an unmapped buffer. -/
theorem c9_update_buffer_unmapped_noop_witness :
    update_buffer 8 none 4 [[1, 2, 3, 4]] 0 = .ok none :=
  c9_update_buffer_unmapped_noop 8 4 0 [[1, 2, 3, 4]] (by decide)

/-- C10: on a mapped buffer, `update_buffer` with an empty element list
panics at `&verts[0]` (index out of range) although the bounds assertion
passes and zero bytes would need copying. -/
theorem c10_update_buffer_empty_panics (reqSize elemSize vertex_offset : Nat)
    (mem : Mem) (h : vertex_offset ≤ reqSize) :
    update_buffer reqSize (some mem) elemSize [] vertex_offset =
      .indexPanicked := by
  unfold update_buffer
  rw [if_pos (by simpa using h)]
  rfl

/-- C10 witness: a concrete mapped buffer and empty element list. -/
theorem c10_update_buffer_empty_panics_witness :
    update_buffer 8 (some (fun _ => none)) 4 [] 4 = .indexPanicked :=
  c10_update_buffer_empty_panics 8 4 4 (fun _ => none) (by decide)

/-- C1: the destination offset is dropped by the code. `edit_image`
forwards `(offset.x, offset.y, 0)` to
`load_staging_buffer_into_image_object` (loaded_image.rs:179-183), but
that function records the `BufferImageCopy` with a hard-coded
`image_offset: Offset { x: 0, y: 0, z: 0 }` (loaded_image.rs:294) and
never uses its `image_offset` parameter. Editing a 2x2 region at offset
(2, 2) records exactly one copy command, whose destination offset is
(0, 0, 0) — not the claimed (2, 2, 0) — though its extent (2, 2, 1) is as
claimed. -/
theorem c1_edit_image_ignores_offset :
    (edit_image oracleAllOk 2 2 ⟨2, 2⟩ (List.range 16)).2 = .ok () ∧
    ((edit_image oracleAllOk 2 2 ⟨2, 2⟩ (List.range 16)).1.countP
      isCopyCall = 1) ∧
    DeviceCall.copyBufferToImage ⟨0, 2, 2, 0, 0, 0, 2, 2, 1⟩ ∈
      (edit_image oracleAllOk 2 2 ⟨2, 2⟩ (List.range 16)).1 ∧
    DeviceCall.copyBufferToImage ⟨0, 2, 2, 2, 2, 0, 2, 2, 1⟩ ∉
      (edit_image oracleAllOk 2 2 ⟨2, 2⟩ (List.range 16)).1 :=
  ⟨by decide, by decide, by decide, by decide⟩

/-- C6 counterexample: when fence creation fails after the staging buffer
has been created, `edit_image` returns the error without ever issuing
`destroy_buffer`/`free_memory` for the staging buffer (the `?` at
loaded_image.rs:173-187 returns before the `manually_drop` at
loaded_image.rs:189), contradicting "released ... on every failure path
of the subsequent copy/submit/wait steps". -/
theorem c6_staging_leak_counterexample :
    (edit_image { oracleAllOk with create_fence_ok := false } 2 2 ⟨0, 0⟩
        (List.range 16)).2 = .err .uploadFence ∧
    DeviceCall.createBuffer 16 .TRANSFER_SRC ∈
      (edit_image { oracleAllOk with create_fence_ok := false } 2 2 ⟨0, 0⟩
        (List.range 16)).1 ∧
    DeviceCall.destroyBuffer ∉
      (edit_image { oracleAllOk with create_fence_ok := false } 2 2 ⟨0, 0⟩
        (List.range 16)).1 ∧
    DeviceCall.freeMemory ∉
      (edit_image { oracleAllOk with create_fence_ok := false } 2 2 ⟨0, 0⟩
        (List.range 16)).1 :=
  ⟨by decide, by decide, by decide, by decide⟩

/-- C6 (amended): the staging buffer is released (destroy-buffer then
free-memory, as the final two device calls) before `edit_image` returns
on the success path; on every failure path the function returns the error
without releasing the staging buffer — no `destroy_buffer` or
`free_memory` appears in the trace at all. -/
theorem c6_staging_release_on_success (o : Oracle) (width height : Nat)
    (offset : Vec2Int) (data : List Nat) :
    ((edit_image o width height offset data).2 = .ok () →
      ∃ pre, (edit_image o width height offset data).1 =
        pre ++ [DeviceCall.destroyBuffer, DeviceCall.freeMemory]) ∧
    ((edit_image o width height offset data).2 ≠ .ok () →
      DeviceCall.destroyBuffer ∉ (edit_image o width height offset data).1 ∧
      DeviceCall.freeMemory ∉ (edit_image o width height offset data).1) := by
  rcases edit_image_cases o width height offset data with
    ⟨hok, pre, htr, _⟩ | ⟨hne, hd, hf⟩
  · exact ⟨fun _ => ⟨pre, htr⟩, fun hne => absurd hok hne⟩
  · exact ⟨fun hok => absurd hok hne, fun _ => ⟨hd, hf⟩⟩

/-- C6 witness: a concrete successful `edit_image` whose trace ends with
the staging release. -/
theorem c6_staging_release_on_success_witness :
    ∃ pre, (edit_image oracleAllOk 2 2 ⟨0, 0⟩ (List.range 16)).1 =
      pre ++ [DeviceCall.destroyBuffer, DeviceCall.freeMemory] :=
  (c6_staging_release_on_success oracleAllOk 2 2 ⟨0, 0⟩
    (List.range 16)).1 (by decide)

/-- C8: every successful `allocate_and_create` writes the descriptor set
exactly once — as the very last device call, after the upload's fence
wait — with exactly two bindings: binding 0 the image view at
shader-read-only-optimal layout, binding 1 the sampler. -/
theorem c8_descriptor_write_once (o : Oracle) (img : List Nat)
    (width height : Nat) (filter : Filter)
    (hok : (allocate_and_create o img width height filter).2 = .ok ()) :
    ∃ pre, (allocate_and_create o img width height filter).1 =
        pre ++ [DeviceCall.writeDescriptorSets theDescriptorWrites] ∧
      DeviceCall.waitForFence ∈ pre ∧
      (∀ ws, DeviceCall.writeDescriptorSets ws ∉ pre) ∧
      theDescriptorWrites =
        [⟨0, 0, .image .ShaderReadOnlyOptimal⟩, ⟨1, 0, .sampler⟩] := by
  cases hci : o.create_image_ok with
  | false => exfalso; simp [allocate_and_create, hci] at hok
  | true =>
  cases hfind : find_memory_type_id o.memory_types o.image_req.type_mask
      DEVICE_LOCAL with
  | none => exfalso; simp [allocate_and_create, hci, hfind] at hok
  | some id =>
  cases hia : o.image_allocate_ok with
  | false => exfalso; simp [allocate_and_create, hci, hfind, hia] at hok
  | true =>
  cases hib : o.image_bind_ok with
  | false => exfalso; simp [allocate_and_create, hci, hfind, hia, hib] at hok
  | true =>
  cases hiv : o.image_view_ok with
  | false => exfalso; simp [allocate_and_create, hci, hfind, hia, hib, hiv] at hok
  | true =>
  cases hs : o.sampler_ok with
  | false =>
    exfalso; simp [allocate_and_create, hci, hfind, hia, hib, hiv, hs] at hok
  | true =>
  cases hd : o.descriptor_ok with
  | false =>
    exfalso
    simp [allocate_and_create, hci, hfind, hia, hib, hiv, hs, hd] at hok
  | true =>
  rcases hed : edit_image o width height ⟨0, 0⟩ img with ⟨tr2, res2⟩
  cases res2 with
  | err e =>
    exfalso
    simp [allocate_and_create, hci, hfind, hia, hib, hiv, hs, hd, hed] at hok
  | panicked =>
    exfalso
    simp [allocate_and_create, hci, hfind, hia, hib, hiv, hs, hd, hed] at hok
  | ok u =>
    cases u
    have htr : (allocate_and_create o img width height filter).1 =
        ([DeviceCall.createImage width height,
          DeviceCall.allocateMemory id o.image_req.size,
          DeviceCall.bindImageMemory, DeviceCall.createImageView,
          DeviceCall.createSampler filter, DeviceCall.allocateDescriptorSet]
          ++ tr2) ++ [DeviceCall.writeDescriptorSets theDescriptorWrites] := by
      simp [allocate_and_create, hci, hfind, hia, hib, hiv, hs, hd, hed]
    refine ⟨_, htr, ?_, ?_, rfl⟩
    · have hw := edit_ok_waitForFence o width height ⟨0, 0⟩ img (by rw [hed])
      rw [hed] at hw
      exact List.mem_append.mpr (.inr hw)
    · intro ws hmem
      rcases List.mem_append.mp hmem with hm | hm
      · simp at hm
      · exact edit_no_descriptor_write o width height ⟨0, 0⟩ img ws
          (by rw [hed]; exact hm)

/-- C8 witness: a concrete successful `allocate_and_create`. -/
theorem c8_descriptor_write_once_witness :
    ∃ pre, (allocate_and_create oracleAllOk (List.range 16) 2 2 .Nearest).1 =
        pre ++ [DeviceCall.writeDescriptorSets theDescriptorWrites] ∧
      DeviceCall.waitForFence ∈ pre ∧
      (∀ ws, DeviceCall.writeDescriptorSets ws ∉ pre) ∧
      theDescriptorWrites =
        [⟨0, 0, .image .ShaderReadOnlyOptimal⟩, ⟨1, 0, .sampler⟩] :=
  c8_descriptor_write_once oracleAllOk (List.range 16) 2 2 .Nearest (by decide)

end VulkanLoader
